import Mathlib

/-!
Verification development for the `hotbench` essay-judging system.

The Python sources under `src/hotbench/` are shallowly embedded below:
pure functions become Lean functions, the (single-threaded) stateful
pipeline becomes explicit state passing, Python exceptions become
`Except PyExc`, and the outcome of each external LLM service call is an
explicit input (`LiveResponse`) to the functions that perform it.
Python `int` is modelled by `Int`, Python `dict` (insertion-ordered) by an
association list, and the float `get_average_score` by `Rat`.
-/

namespace Hotbench

/-! ### utils.py -/

/-- Embeds `SCORE_CATEGORIES` from `utils.py`: the ordered rubric mapping
category name to maximum points. -/
def SCORE_CATEGORIES : List (String × Int) :=
  [("effectiveness", 25), ("creativity", 25), ("scholarship", 25), ("effort", 10)]

/-- Counts the maximal non-whitespace runs of a character sequence; the
`inWord` flag says whether the previous character belonged to a word. -/
def countWordsAux : List Char → Bool → Nat
  | [], _ => 0
  | c :: rest, inWord =>
      if c.isWhitespace then countWordsAux rest false
      else (if inWord then 0 else 1) + countWordsAux rest true

/-- Embeds `count_words` from `utils.py`: `len(text.split())`.
Python `str.split()` with no argument splits on whitespace runs and drops
empty pieces, so the result is the number of maximal non-whitespace runs. -/
def count_words (text : String) : Nat :=
  countWordsAux text.toList false

/-! ### judges.py: the JudgeScore pydantic model -/

/-- Embeds the `JudgeScore` pydantic model from `judges.py`: one integer per
rubric category plus a rationale string.  The field bounds
(`ge=1, le=SCORE_CATEGORIES[...]`) are enforced by `model_validate` below,
as pydantic enforces them at construction. -/
structure JudgeScore where
  effectiveness : Int
  creativity : Int
  scholarship : Int
  effort : Int
  rationale : String
deriving DecidableEq, Repr

/-- Embeds the `total` property of `JudgeScore`. -/
def JudgeScore.total (s : JudgeScore) : Int :=
  s.effectiveness + s.creativity + s.scholarship + s.effort

/-- A JSON-object payload as passed to `JudgeScore.model_validate`: each
expected field is present or absent, and `extras` lists the names of any
fields not declared in the model. -/
structure Payload where
  effectiveness : Option Int
  creativity : Option Int
  scholarship : Option Int
  effort : Option Int
  rationale : Option String
  extras : List String
deriving DecidableEq, Repr

/-- Embeds `JudgeScore.model_validate`: pydantic validation of a payload.
Each category field is required and must satisfy its `ge=1` / `le=max`
bounds; `rationale` is required.  Fields not declared on the model are
ignored, which is the documented default (`extra='ignore'`) for a pydantic
`BaseModel` with no contrary `model_config`, as `JudgeScore` is.
Returns `none` where pydantic raises `ValidationError`. -/
def JudgeScore.model_validate (p : Payload) : Option JudgeScore :=
  match p.effectiveness, p.creativity, p.scholarship, p.effort, p.rationale with
  | some e, some c, some s, some f, some r =>
      if 1 ≤ e ∧ e ≤ 25 ∧ 1 ≤ c ∧ c ≤ 25 ∧ 1 ≤ s ∧ s ≤ 25 ∧ 1 ≤ f ∧ f ≤ 10 then
        some ⟨e, c, s, f, r⟩
      else
        none
  | _, _, _, _, _ => none

/-! ### judges.py: deterministic simulated scoring

`Judge._simulate_score` seeds `random.Random(len(essay_content))` and draws
`randint(1, max)` once per rubric category, in rubric order.  The Python
standard-library Mersenne Twister is external library code; it is modelled
here by a concrete deterministic generator with the same interface and the
same guarantees the code relies on: the value of each draw is a pure
function of the seed, the draw index, and the bounds, and lies in `[a, b]`.
No claim depends on the particular numeric values CPython would produce. -/

/-- Deterministic mixing function standing in for the Mersenne Twister
stream: a pure function of seed and draw index. -/
def mixPRNG (seed draws : Nat) : Nat :=
  (seed * 2654435761 + draws * 40503 + 97) % 4294967296

/-- Model of a `random.Random` instance: the seed it was constructed with
and the number of draws made so far. -/
structure PyRandom where
  seed : Nat
  draws : Nat
deriving DecidableEq, Repr

/-- Model of `random.Random(seed)`. -/
def PyRandom.ofSeed (seed : Nat) : PyRandom := ⟨seed, 0⟩

/-- Model of `rnd.randint(a, b)`: a deterministic value in `[a, b]`
(for `a ≤ b`), together with the advanced generator state. -/
def PyRandom.randint (r : PyRandom) (a b : Int) : Int × PyRandom :=
  (a + ((mixPRNG r.seed r.draws) % (b - a + 1).toNat : Nat), ⟨r.seed, r.draws + 1⟩)

/-- The fixed sentinel rationale used by `Judge._simulate_score`. -/
def simulatedRationale : String :=
  "This is a simulated score generated because no API key was available."

/-- The body of `Judge._simulate_score` after the seed has been taken:
one `randint(1, max)` draw per rubric category in declaration order, fed
through `JudgeScore.model_validate` exactly as the source does.  The draws
are always in range, so validation always succeeds; the `getD` default is
unreachable (see `simulateFromSeed_validates`). -/
def simulateFromSeed (seed : Nat) : JudgeScore :=
  let r0 := PyRandom.ofSeed seed
  let (e, r1) := r0.randint 1 25
  let (c, r2) := r1.randint 1 25
  let (s, r3) := r2.randint 1 25
  let (f, _) := r3.randint 1 10
  (JudgeScore.model_validate
    ⟨some e, some c, some s, some f, some simulatedRationale, []⟩).getD
    ⟨1, 1, 1, 1, ""⟩

/-- Embeds `Judge._simulate_score` from `judges.py`: deterministic simulated
scoring seeded by `len(essay_content)`.  This one routine is shared by every
judge variant. -/
def Judge.simulate_score (essay_content : String) : JudgeScore :=
  simulateFromSeed essay_content.length

/-! ### judges.py: live evaluation

Each concrete judge's `_perform_live_evaluation` wraps in a `try` block:
the service call, `json.loads` on the returned text, and
`JudgeScore.model_validate` on the parsed payload.  The outcome of the
external service call is an explicit input: either the call raises a
transport-level exception, or it returns text that fails `json.loads`, or
it returns text parsing to a JSON-object payload. -/

/-- The outcome of one external LLM service call, as seen by
`_perform_live_evaluation`. -/
inductive LiveResponse where
  /-- The service call itself raises (network failure, rate limit, non-2xx):
  `openai.OpenAIError` for the OpenAI SDK, a `google.api_core` exception for
  the Google SDK. -/
  | transportError : LiveResponse
  /-- The call returns text that is not valid JSON, so `json.loads` raises
  `json.JSONDecodeError`. -/
  | nonJson : LiveResponse
  /-- The call returns text parsing to the given JSON-object payload. -/
  | jsonPayload (p : Payload) : LiveResponse
deriving DecidableEq, Repr

/-- The backing service of a judge variant: `OpenAI*Judge` classes use the
OpenAI chat-completions SDK, `Google*Judge` classes use the Google
generative-content SDK. -/
inductive Service where
  | openai : Service
  | google : Service
deriving DecidableEq, Repr

/-- Python exception classes relevant to the judge and pipeline code. -/
inductive PyExc where
  /-- `openai.OpenAIError` -/
  | openAIError : PyExc
  /-- a `google.api_core` transport exception from `generate_content` -/
  | googleAPIError : PyExc
  /-- `json.JSONDecodeError` -/
  | jsonDecodeError : PyExc
  /-- `pydantic.ValidationError` -/
  | validationError : PyExc
  /-- `KeyError` -/
  | keyError : PyExc
  /-- `IndexError` -/
  | indexError : PyExc
  /-- `AttributeError` -/
  | attributeError : PyExc
deriving DecidableEq, Repr

/-- The transport exception class each SDK raises when the service call
itself fails. -/
def Service.transportExc : Service → PyExc
  | .openai => .openAIError
  | .google => .googleAPIError

/-- The `except` clause of `_perform_live_evaluation` for each service.
From `judges.py`: the OpenAI judges catch
`(openai.OpenAIError, json.JSONDecodeError, ValidationError, KeyError, IndexError)`;
the Google judges catch
`(json.JSONDecodeError, ValidationError, AttributeError, KeyError)` —
note no Google transport exception class is in the Google list. -/
def Service.caught : Service → PyExc → Bool
  | .openai, .openAIError => true
  | .openai, .jsonDecodeError => true
  | .openai, .validationError => true
  | .openai, .keyError => true
  | .openai, .indexError => true
  | .openai, _ => false
  | .google, .jsonDecodeError => true
  | .google, .validationError => true
  | .google, .attributeError => true
  | .google, .keyError => true
  | .google, _ => false

/-- The `try` body of `_perform_live_evaluation`: the service call, then
`json.loads(response_text)`, then `JudgeScore.model_validate(payload)`.
Each stage's failure is the corresponding Python exception. -/
def liveCallBody (service : Service) (resp : LiveResponse) : Except PyExc JudgeScore :=
  match resp with
  | .transportError => .error service.transportExc
  | .nonJson => .error .jsonDecodeError
  | .jsonPayload p =>
      match JudgeScore.model_validate p with
      | some s => .ok s
      | none => .error .validationError

/-- Embeds `_perform_live_evaluation` (all four judge variants share this
shape): run the `try` body; an exception named in the variant's `except`
clause is converted to `self._simulate_score("")`; any other exception
propagates to the caller. -/
def performLiveEvaluation (service : Service) (resp : LiveResponse) :
    Except PyExc JudgeScore :=
  match liveCallBody service resp with
  | .ok s => .ok s
  | .error e => if service.caught e then .ok (Judge.simulate_score "") else .error e

/-! ### judges.py: the judge variants -/

/-- A constructed judge: the identity fields set by `Judge.__init__`, the
backing service, and whether the service credential was present at
construction (`self.client` / `self.model` is not `None`).  The credential
check happens once, in `__init__`; the flag is fixed for the judge's
lifetime. -/
structure JudgeSpec where
  judge_id : Int
  judge_type : String
  model_name : String
  service : Service
  live : Bool
deriving DecidableEq, Repr

/-- Embeds `OpenAIAcademicJudge.__init__`; `hasKey` is whether
`os.getenv("OPENAI_API_KEY")` is truthy at construction. -/
def OpenAIAcademicJudge.init (judge_id : Int) (hasKey : Bool) : JudgeSpec :=
  ⟨judge_id, "The Academic", "gpt-4o-mini", .openai, hasKey⟩

/-- Embeds `GoogleCreativeJudge.__init__`; `hasKey` is whether
`os.getenv("GOOGLE_API_KEY")` is truthy at construction. -/
def GoogleCreativeJudge.init (judge_id : Int) (hasKey : Bool) : JudgeSpec :=
  ⟨judge_id, "The Creative Writer", "gemini-2.5-flash", .google, hasKey⟩

/-- Embeds `OpenAIHistoryJudge.__init__`. -/
def OpenAIHistoryJudge.init (judge_id : Int) (hasKey : Bool) : JudgeSpec :=
  ⟨judge_id, "History Professor", "gpt-4o-mini", .openai, hasKey⟩

/-- Embeds `GoogleLiteratureJudge.__init__`. -/
def GoogleLiteratureJudge.init (judge_id : Int) (hasKey : Bool) : JudgeSpec :=
  ⟨judge_id, "English Literature Professor", "gemini-2.5-flash", .google, hasKey⟩

/-- Embeds `get_all_judges` from `judges.py`, parameterized by which API
keys are present in the environment. -/
def get_all_judges (hasOpenAIKey hasGoogleKey : Bool) : List JudgeSpec :=
  [OpenAIAcademicJudge.init 1 hasOpenAIKey,
   GoogleCreativeJudge.init 2 hasGoogleKey,
   OpenAIHistoryJudge.init 3 hasOpenAIKey,
   GoogleLiteratureJudge.init 4 hasGoogleKey]

/-- Embeds `evaluate` (identical shape in all four variants): a judge whose
credential was absent at construction returns
`self._simulate_score(essay_content)`; otherwise it builds the prompt and
runs `_perform_live_evaluation`, whose service-call outcome is the explicit
`resp` input.  `student_name` is passed by the pipeline but unused by
`evaluate`, as in the source. -/
def Judge.evaluate (j : JudgeSpec) (essay_content student_name : String)
    (resp : LiveResponse) : Except PyExc JudgeScore :=
  if j.live then
    performLiveEvaluation j.service resp
  else
    .ok (Judge.simulate_score essay_content)

/-! ### settings.py -/

/-- Default from `Settings`: `NUM_JUDGES: int = 4`. -/
def settingsNUM_JUDGES : Int := 4

/-- Default from `Settings`: `NUM_WINNERS: int = 3`. -/
def settingsNUM_WINNERS : Int := 3

/-- Python `x or default` for `x : Optional[int]`: `None` and `0` are falsy,
every other integer is truthy. -/
def pyOrInt (x : Option Int) (default : Int) : Int :=
  match x with
  | none => default
  | some v => if v = 0 then default else v

/-- Embeds `ContestConfig` from `settings.py`. -/
structure ContestConfig where
  num_judges : Int
  num_winners : Int
deriving DecidableEq, Repr

/-- Embeds `ContestConfig.__init__`:
`self.num_judges = num_judges or settings.NUM_JUDGES` and
`self.num_winners = num_winners or settings.NUM_WINNERS`. -/
def ContestConfig.init (num_judges num_winners : Option Int) : ContestConfig :=
  ⟨pyOrInt num_judges settingsNUM_JUDGES, pyOrInt num_winners settingsNUM_WINNERS⟩

/-- Embeds `ContestConfig.get_max_score_per_judge`:
`sum(SCORE_CATEGORIES.values())`. -/
def ContestConfig.get_max_score_per_judge : Int :=
  (SCORE_CATEGORIES.map (fun p => p.2)).sum

/-- Embeds `ContestConfig.get_max_total_score`. -/
def ContestConfig.get_max_total_score (c : ContestConfig) : Int :=
  ContestConfig.get_max_score_per_judge * c.num_judges

/-! ### models.py: Essay and EssayEvaluation

`Essay.__init__` reads the submission file, derives the student name from
the filename, counts words, and sets the disqualification flag.  File I/O
and name parsing are external-input concerns: `content` and `student_name`
are taken as inputs here.  The flag comparison reads
`settings.MAX_WORD_COUNT`; the `Settings` class in `settings.py` declares no
such field, so the word limit is a parameter here (see `mkEssay`). -/

/-- A constructed `Essay`: the fields of `models.Essay` that the scoring
core reads. -/
structure Essay where
  content : String
  student_name : String
  word_count : Nat
  is_disqualified : Bool
deriving DecidableEq, Repr

/-- Embeds the word-count and disqualification logic of `Essay.__init__`.
Modelled from the spec: the comparison bound `settings.MAX_WORD_COUNT` is
referenced in `models.py` but `Settings` in `settings.py` defines no
`MAX_WORD_COUNT` field; the spec fixes only that a word limit exists
("Check if essay exceeds word limit"), so the limit is the `max_word_count`
parameter. -/
def mkEssay (max_word_count : Nat) (content student_name : String) : Essay :=
  let wc := count_words content
  ⟨content, student_name, wc, decide (wc > max_word_count)⟩

/-- Python-dict assignment `d[k] = v` on an insertion-ordered association
list: an existing key is updated in place, a new key is appended. -/
def dictSet (d : List (Int × JudgeScore)) (k : Int) (v : JudgeScore) :
    List (Int × JudgeScore) :=
  match d with
  | [] => [(k, v)]
  | (k', v') :: rest => if k' = k then (k, v) :: rest else (k', v') :: dictSet rest k v

/-- Python-dict lookup `d.get(k)` / `k in d` on the association list. -/
def dictGet? (d : List (Int × JudgeScore)) (k : Int) : Option JudgeScore :=
  match d with
  | [] => none
  | (k', v') :: rest => if k' = k then some v' else dictGet? rest k

/-- Embeds `EssayEvaluation` from `models.py`: one essay plus the
insertion-ordered mapping from judge id to that judge's score. -/
structure EssayEvaluation where
  essay : Essay
  judge_scores : List (Int × JudgeScore)
deriving DecidableEq, Repr

/-- Embeds `EssayEvaluation.add_judge_score`:
`self.judge_scores[judge_id] = score`. -/
def EssayEvaluation.add_judge_score (ev : EssayEvaluation) (judge_id : Int)
    (score : JudgeScore) : EssayEvaluation :=
  { ev with judge_scores := dictSet ev.judge_scores judge_id score }

/-- Embeds `EssayEvaluation.get_total_score`:
`sum(score.total for score in self.judge_scores.values())`. -/
def EssayEvaluation.get_total_score (ev : EssayEvaluation) : Int :=
  (ev.judge_scores.map (fun p => p.2.total)).sum

/-- Embeds `EssayEvaluation.get_average_score`: `0.0` when no judge scored,
otherwise total divided by the number of held scores.  Python float
division is modelled exactly over `Rat`. -/
def EssayEvaluation.get_average_score (ev : EssayEvaluation) : Rat :=
  if ev.judge_scores = [] then 0
  else (ev.get_total_score : Rat) / (ev.judge_scores.length : Rat)

/-! ### models.py: ConsolidatedResults -/

/-- One insertion step of a stable descending sort by `get_total_score`:
the element goes before the first element whose total is `≤` its own, i.e.
after every strictly greater element and after no equal one that it
originally preceded. -/
def insertByTotal (e : EssayEvaluation) :
    List EssayEvaluation → List EssayEvaluation
  | [] => [e]
  | x :: xs =>
      if x.get_total_score ≤ e.get_total_score then e :: x :: xs
      else x :: insertByTotal e xs

/-- Model of CPython `sorted(evaluations, key=lambda e: e.get_total_score(),
reverse=True)` from `ConsolidatedResults.__init__`.  CPython's `sorted` is
documented stable, and `reverse=True` is documented not to disturb the
order of equal elements; a stable insertion sort realizes exactly that
contract. -/
def sortByTotalDesc : List EssayEvaluation → List EssayEvaluation
  | [] => []
  | x :: xs => insertByTotal x (sortByTotalDesc xs)

/-- Embeds `ConsolidatedResults` from `models.py`.  The `filepath` field is
report-sink I/O and is omitted. -/
structure ConsolidatedResults where
  evaluations : List EssayEvaluation
  config : ContestConfig
  sorted_evaluations : List EssayEvaluation
deriving DecidableEq, Repr

/-- Embeds `ConsolidatedResults.__init__`: store the evaluations and the
config, and sort by total score descending. -/
def ConsolidatedResults.init (evaluations : List EssayEvaluation)
    (config : ContestConfig) : ConsolidatedResults :=
  ⟨evaluations, config, sortByTotalDesc evaluations⟩

/-- Embeds `ConsolidatedResults.get_winners`:
`num_winners = min(self.config.num_winners, len(self.sorted_evaluations))`
then `[(i + 1, self.sorted_evaluations[i]) for i in range(num_winners)]`.
Python `range(n)` is empty for `n ≤ 0`; the indices `0 ≤ i < num_winners`
are realized by `take` and `enum`. -/
def ConsolidatedResults.get_winners (r : ConsolidatedResults) :
    List (Int × EssayEvaluation) :=
  let num_winners : Int := min r.config.num_winners (r.sorted_evaluations.length : Int)
  (r.sorted_evaluations.take num_winners.toNat).enum.map
    (fun p => ((p.1 : Int) + 1, p.2))

/-! ### llm.py: the evaluation pipeline

`EssayEvaluator.evaluate_all_essays` iterates the discovered essays in
order; for each essay it constructs one `EssayEvaluation` and invokes every
judge in list order inside `try: ... except Exception`, so that any
exception escaping `judge.evaluate` only omits that one score.  The outcome
of each external service call is supplied by the environment `resp`, one
`LiveResponse` per (essay, judge) pair. -/

/-- The per-essay inner loop of `evaluate_all_essays` (`llm.py`): fold over
the judge list, appending each successful score keyed by the judge's id and
swallowing any exception from `evaluate`. -/
def evaluateEssay (judges : List JudgeSpec) (resp : JudgeSpec → LiveResponse)
    (essay : Essay) : EssayEvaluation :=
  judges.foldl
    (fun evaluation j =>
      match Judge.evaluate j essay.content essay.student_name (resp j) with
      | .ok score => evaluation.add_judge_score j.judge_id score
      | .error _ => evaluation)
    ⟨essay, []⟩

/-- Embeds `EssayEvaluator.evaluate_all_essays`: one `EssayEvaluation` per
essay, in essay order, appended to `self.evaluations`. -/
def evaluate_all_essays (essays : List Essay) (judges : List JudgeSpec)
    (resp : Essay → JudgeSpec → LiveResponse) : List EssayEvaluation :=
  essays.map (fun e => evaluateEssay judges (resp e) e)

/-! ### llm.py and meta_judge.py: consuming stages

These stages read `evaluation.judge_scores` for judge ids `1..num_judges`.
Two access patterns occur:

* `evaluation.judge_scores.get(i, 0).total` — when judge `i` has no entry,
  `.get(i, 0)` returns the **int** `0`, and `(0).total` raises
  `AttributeError` (an `int` has no attribute `total`);
* `evaluation.judge_scores[i].total` — when judge `i` has no entry, the
  subscript raises `KeyError`.

The console/file rendering around these reads is I/O and is omitted; each
stage is modelled as the sequence of these fallible reads. -/

/-- Models the expression `evaluation.judge_scores.get(i, 0).total`. -/
def pyGetDefaultZeroTotal (scores : List (Int × JudgeScore)) (i : Int) :
    Except PyExc Int :=
  match dictGet? scores i with
  | some s => .ok s.total
  | none => .error .attributeError

/-- Models the expression `evaluation.judge_scores[i].total`. -/
def pySubscriptTotal (scores : List (Int × JudgeScore)) (i : Int) :
    Except PyExc Int :=
  match dictGet? scores i with
  | some s => .ok s.total
  | none => .error .keyError

/-- The judge-column cells of one table row in `_display_results`
(`llm.py`): `[str(evaluation.judge_scores.get(i, 0).total) for i in
range(1, results.config.num_judges + 1)]`. -/
def displayRowScores (num_judges : Int) (ev : EssayEvaluation) :
    Except PyExc (List Int) :=
  (List.range num_judges.toNat).mapM
    (fun k => pyGetDefaultZeroTotal ev.judge_scores ((k : Int) + 1))

/-- Embeds the fallible part of `_display_results` (`llm.py`): one row of
judge-score cells per ranked evaluation. -/
def display_results (r : ConsolidatedResults) : Except PyExc (List (List Int)) :=
  r.sorted_evaluations.mapM (displayRowScores r.config.num_judges)

/-- Embeds the fallible part of `_save_results` (`llm.py`).  The winners
and detailed-breakdown sections guard every read with
`if judge_id in evaluation.judge_scores` and cannot fail; the all-essays
ranked table computes `evaluation.judge_scores.get(i, 0).total` per row,
exactly as `_display_results` does. -/
def save_results (r : ConsolidatedResults) : Except PyExc (List (List Int)) :=
  r.sorted_evaluations.mapM (displayRowScores r.config.num_judges)

/-- Embeds the fallible part of `MetaAnalyzer.create_analysis_prompt`
(`meta_judge.py`): for each winner it computes
`[evaluation.judge_scores[i].total for i in range(1, config.num_judges + 1)]`
with an unguarded subscript; the detailed section below it guards with
`if judge_id in evaluation.judge_scores` and cannot fail. -/
def create_analysis_prompt (r : ConsolidatedResults) (config : ContestConfig) :
    Except PyExc (List (List Int)) :=
  r.get_winners.mapM
    (fun w =>
      (List.range config.num_judges.toNat).mapM
        (fun k => pySubscriptTotal w.2.judge_scores ((k : Int) + 1)))

/-- Embeds `consolidate_and_determine_winners` (`llm.py`): build the
`ConsolidatedResults`, then run `_display_results` and `_save_results`; an
exception from either propagates (there is no handler between these calls
and `main`'s top-level catch-all, which aborts the run). -/
def consolidate_and_determine_winners (evaluations : List EssayEvaluation)
    (config : ContestConfig) : Except PyExc ConsolidatedResults := do
  let results := ConsolidatedResults.init evaluations config
  let _ ← display_results results
  let _ ← save_results results
  return results

/-! ### Spec-side validation predicate (for the refinement claim about
`JudgeScore` construction) -/

/-- Validation as the spec words it, for comparison with
`JudgeScore.model_validate`: every rubric category field must be present
with a value in `[1, category_max]` (`effectiveness`, `creativity`,
`scholarship` up to 25, `effort` up to 10), and a rationale must be
present.  Nothing is required of the payload's extra fields. -/
def specValidPayload (p : Payload) : Prop :=
  (∃ v, p.effectiveness = some v ∧ 1 ≤ v ∧ v ≤ 25) ∧
  (∃ v, p.creativity = some v ∧ 1 ≤ v ∧ v ≤ 25) ∧
  (∃ v, p.scholarship = some v ∧ 1 ≤ v ∧ v ≤ 25) ∧
  (∃ v, p.effort = some v ∧ 1 ≤ v ∧ v ≤ 10) ∧
  (∃ r, p.rationale = some r)

/-! ### Concrete data used by individual claims -/

/-- A concrete score with total 50. -/
def sampleScore50 : JudgeScore := ⟨20, 20, 9, 1, "fifty"⟩

/-- A concrete score with total 80. -/
def sampleScore80 : JudgeScore := ⟨25, 25, 20, 10, "eighty"⟩

/-- A concrete score with total 30. -/
def sampleScore30 : JudgeScore := ⟨10, 10, 9, 1, "thirty"⟩

/-- Scored item 1 of the tie-break example: total 50. -/
def exItem1 : EssayEvaluation := ⟨⟨"alpha essay", "Alice Ames", 2, false⟩, [(1, sampleScore50)]⟩

/-- Scored item 2 of the tie-break example: total 80. -/
def exItem2 : EssayEvaluation := ⟨⟨"bravo essay", "Bob Binks", 2, false⟩, [(1, sampleScore80)]⟩

/-- Scored item 3 of the tie-break example: total 80, discovered after item 2. -/
def exItem3 : EssayEvaluation := ⟨⟨"charlie essay", "Cara Cole", 2, false⟩, [(1, sampleScore80)]⟩

/-- Scored item 4 of the tie-break example: total 30. -/
def exItem4 : EssayEvaluation := ⟨⟨"delta essay", "Dan Drew", 2, false⟩, [(1, sampleScore30)]⟩

/-- A scored item for the winner-clamping instance. -/
def wEvalA : EssayEvaluation := ⟨⟨"echo essay", "Eve Evans", 2, false⟩, [(1, sampleScore80)]⟩

/-- A second scored item for the winner-clamping instance. -/
def wEvalB : EssayEvaluation := ⟨⟨"fox essay", "Finn Field", 2, false⟩, [(1, sampleScore50)]⟩

/-- The essay of the batch in which every judge call raises. -/
def essayAllFail : Essay := ⟨"a short essay", "Gina Green", 3, false⟩

/-- Two live Google-backed judges with ids 1 and 2: a transport error makes
each of their `evaluate` calls raise. -/
def allFailJudges : List JudgeSpec :=
  [GoogleCreativeJudge.init 1 true, GoogleLiteratureJudge.init 2 true]

/-- The evaluations of a batch in which every judge call for every item
raised: one essay, every service call a transport error. -/
def failedBatchEvaluations : List EssayEvaluation :=
  evaluate_all_essays [essayAllFail] allFailJudges (fun _ _ => LiveResponse.transportError)

/-- First essay of the partial-failure pipeline instance. -/
def wesA : Essay := ⟨"good words here", "Gail Gray", 3, false⟩

/-- Second essay of the partial-failure pipeline instance. -/
def wesB : Essay := ⟨"more fine words", "Hank Hill", 3, false⟩

/-- A schema-conforming payload used as a successful live response. -/
def wPayload : Payload := ⟨some 20, some 20, some 9, some 1, some "live rationale", []⟩

/-- A live Google-backed judge used in the pipeline instances. -/
def wJudgeG : JudgeSpec := GoogleCreativeJudge.init 2 true

/-- A response environment in which every call for `wesA` is a transport
error and every call for `wesB` returns `wPayload`. -/
def wResp : Essay → JudgeSpec → LiveResponse :=
  fun e _ => if e = wesA then LiveResponse.transportError else LiveResponse.jsonPayload wPayload

/-- A fallback-only judge (constructed without a credential). -/
def dqJudge : JudgeSpec := OpenAIAcademicJudge.init 1 false

/-- Content with three words, over a two-word limit. -/
def dqContent : String := "one two three"

/-! ## Theorems -/

/-- The four simulated draws are in range, so `model_validate` inside
`simulateFromSeed` always succeeds and the rationale of every simulated
score is the sentinel. -/
lemma simulateFromSeed_rationale (seed : Nat) :
    (simulateFromSeed seed).rationale = simulatedRationale := by
  have h0 : mixPRNG seed 0 % 25 < 25 := Nat.mod_lt _ (by norm_num)
  have h1 : mixPRNG seed 1 % 25 < 25 := Nat.mod_lt _ (by norm_num)
  have h2 : mixPRNG seed 2 % 25 < 25 := Nat.mod_lt _ (by norm_num)
  have h3 : mixPRNG seed 3 % 10 < 10 := Nat.mod_lt _ (by norm_num)
  simp only [simulateFromSeed, PyRandom.ofSeed, PyRandom.randint, JudgeScore.model_validate]
  norm_num
  rw [if_pos]
  · rfl
  · refine ⟨by omega, by omega, by omega, by omega, by omega, by omega, by omega, by omega⟩

/-- C2: fallback/simulated scoring is a deterministic function of the
text's character length alone: any two texts of equal length produce the
very same `JudgeScore` — identical category scores, category by category —
with the fixed sentinel rationale.  The one routine `Judge._simulate_score`
is shared by every judge variant, and it is a pure function, so the result
does not depend on the caller, the call count, or the process run. -/
theorem simulate_score_deterministic_in_length (s t : String)
    (h : s.length = t.length) :
    Judge.simulate_score s = Judge.simulate_score t ∧
    (Judge.simulate_score s).rationale = simulatedRationale := by
  constructor
  · unfold Judge.simulate_score
    rw [h]
  · exact simulateFromSeed_rationale _

/-- Witness for C2: the two distinct texts "ab" and "cd" have equal length,
and the theorem yields identical simulated scores with the sentinel
rationale. -/
theorem simulate_score_deterministic_in_length_witness :
    ("ab" : String).length = ("cd" : String).length ∧
    (Judge.simulate_score "ab" = Judge.simulate_score "cd" ∧
     (Judge.simulate_score "ab").rationale = simulatedRationale) :=
  ⟨by decide, simulate_score_deterministic_in_length "ab" "cd" (by decide)⟩

/-- C1 counterexample: the claim that every judge variant converts every
live-chain failure — transport errors included — into a fallback Score is
false at a concrete input: a live Google-backed judge whose service call
raises a transport exception re-raises it to the caller, because the Google
variants' `except` clause names no Google transport exception class. -/
theorem google_judge_raises_on_transport_error :
    Judge.evaluate (GoogleCreativeJudge.init 2 true) "an essay" "A Student"
      LiveResponse.transportError = Except.error PyExc.googleAPIError := rfl

/-- C1 (amended): `evaluate` returns a Score — never an error — in every
case except one: a live Google-backed judge whose service call raises a
transport exception.  In particular every fallback-only judge, every
OpenAI-backed judge (whose `except` clause includes `openai.OpenAIError`),
and every live judge receiving a response text (JSON or not, schema-valid
or not) returns a Score. -/
theorem evaluate_total_except_google_transport (j : JudgeSpec)
    (essay_content student_name : String) (resp : LiveResponse) :
    (Judge.evaluate j essay_content student_name resp).isOk =
      !(j.live && j.service == Service.google && resp == LiveResponse.transportError) := by
  obtain ⟨id, ty, mn, svc, live⟩ := j
  cases live <;> cases svc <;> cases resp <;>
    simp only [Judge.evaluate, performLiveEvaluation, liveCallBody, Service.caught,
      Service.transportExc, Except.isOk, Except.toBool, if_true, if_false, Bool.false_and,
      Bool.and_false, Bool.and_true, Bool.true_and, Bool.not_false, Bool.not_true,
      beq_self_eq_true, beq_iff_eq, reduceCtorEq, cond_true, cond_false, decide_False,
      decide_True, ite_true, ite_false] <;>
    first
      | rfl
      | (rename_i p
         cases hv : JudgeScore.model_validate p <;> simp [hv])

/-- C4 counterexample: for a live Google-backed judge, a transport-error
failure of the live chain does not produce the empty-string fallback Score
(it raises instead), so the claim quantified over every judge and every
failure stage is false at this input. -/
theorem google_transport_not_empty_fallback :
    Judge.evaluate (GoogleCreativeJudge.init 2 true) "an essay" "A Student"
      LiveResponse.transportError ≠ Except.ok (Judge.simulate_score "") := by
  rw [google_judge_raises_on_transport_error]
  exact fun h => Except.noConfusion h

/-- C4 (amended): for every live judge and every item text, whenever the
live-evaluation chain fails with an exception the judge's `except` clause
catches (for OpenAI judges: transport, non-JSON, schema-validation,
key/index errors; for Google judges: non-JSON, schema-validation,
attribute/key errors), `evaluate` returns the fallback Score computed for
the empty string — a fixed, content-independent score, not the fallback for
the original item text; a transport error on a Google-backed judge instead
propagates to the pipeline. -/
theorem evaluate_caught_failure_gives_empty_fallback (j : JudgeSpec)
    (essay_content student_name : String) (resp : LiveResponse) (e : PyExc)
    (hlive : j.live = true)
    (hfail : liveCallBody j.service resp = Except.error e)
    (hcaught : j.service.caught e = true) :
    Judge.evaluate j essay_content student_name resp =
      Except.ok (Judge.simulate_score "") := by
  unfold Judge.evaluate
  rw [hlive]
  simp [performLiveEvaluation, hfail, hcaught]

/-- Witness for C4 (amended): a live OpenAI-backed judge receiving a
non-JSON response text returns exactly the empty-string fallback Score,
even though the item text is nonempty. -/
theorem evaluate_caught_failure_gives_empty_fallback_witness :
    (OpenAIAcademicJudge.init 1 true).live = true ∧
    liveCallBody (OpenAIAcademicJudge.init 1 true).service LiveResponse.nonJson =
      Except.error PyExc.jsonDecodeError ∧
    Service.caught (OpenAIAcademicJudge.init 1 true).service PyExc.jsonDecodeError = true ∧
    Judge.evaluate (OpenAIAcademicJudge.init 1 true) "a real essay" "A Student"
      LiveResponse.nonJson = Except.ok (Judge.simulate_score "") :=
  ⟨rfl, rfl, rfl,
   evaluate_caught_failure_gives_empty_fallback (OpenAIAcademicJudge.init 1 true)
     "a real essay" "A Student" LiveResponse.nonJson PyExc.jsonDecodeError rfl rfl rfl⟩

/-- C6 counterexample: a payload carrying an unexpected field validates
successfully (pydantic's default for a plain `BaseModel` ignores unknown
fields), refuting the claim that construction fails when an unexpected
category field is present. -/
theorem model_validate_ignores_unexpected_field :
    JudgeScore.model_validate
        ⟨some 20, some 20, some 9, some 1, some "r", ["unexpected_category"]⟩ =
      some ⟨20, 20, 9, 1, "r"⟩ := by decide

/-- C6 (amended): `JudgeScore` construction validates against the rubric —
it fails exactly when some category value is out of its `[1, category_max]`
range (e.g. 0 or `category_max + 1`) or missing, or the rationale is
missing; an unexpected field is ignored and does not make construction
fail; otherwise construction succeeds (and the constructed value, a pure
Lean value here, is immutable). -/
theorem model_validate_iff_spec_valid (p : Payload) :
    (JudgeScore.model_validate p).isSome ↔ specValidPayload p := by
  unfold JudgeScore.model_validate specValidPayload
  cases he : p.effectiveness <;> cases hc : p.creativity <;> cases hs : p.scholarship <;>
    cases hf : p.effort <;> cases hr : p.rationale <;>
    simp [he, hc, hs, hf, hr] <;> omega

/-- C10: constructing a `ContestConfig` with an explicit 0 records the
process-wide default (`num_judges = 4`, `num_winners = 3`), exactly as an
absent argument does, because `x or default` treats the falsy 0 as absent;
every non-zero explicit argument is recorded exactly. -/
theorem contest_config_zero_replaced_by_default :
    ContestConfig.init (some 0) (some 0) = ⟨4, 3⟩ ∧
    ContestConfig.init none none = ⟨4, 3⟩ ∧
    ∀ nj nw : Int, nj ≠ 0 → nw ≠ 0 →
      ContestConfig.init (some nj) (some nw) = ⟨nj, nw⟩ := by
  refine ⟨rfl, rfl, fun nj nw h1 h2 => ?_⟩
  simp [ContestConfig.init, pyOrInt, h1, h2, settingsNUM_JUDGES, settingsNUM_WINNERS]

/-- Witness for C10: the non-zero explicit arguments 7 and 1 are recorded
exactly. -/
theorem contest_config_zero_replaced_by_default_witness :
    (7 : Int) ≠ 0 ∧ (1 : Int) ≠ 0 ∧ ContestConfig.init (some 7) (some 1) = ⟨7, 1⟩ :=
  ⟨by decide, by decide,
   contest_config_zero_replaced_by_default.2.2 7 1 (by decide) (by decide)⟩

/-! ### Lemmas about the consolidation sort -/

/-- Membership through one insertion step. -/
lemma mem_insertByTotal {y e : EssayEvaluation} {l : List EssayEvaluation} :
    y ∈ insertByTotal e l ↔ y = e ∨ y ∈ l := by
  induction l with
  | nil => simp [insertByTotal]
  | cons x xs ih =>
      unfold insertByTotal
      by_cases hx : x.get_total_score ≤ e.get_total_score
      · rw [if_pos hx]
        simp
      · rw [if_neg hx]
        simp [ih]
        tauto

/-- One insertion step is a permutation step. -/
lemma insertByTotal_perm (e : EssayEvaluation) (l : List EssayEvaluation) :
    List.Perm (insertByTotal e l) (e :: l) := by
  induction l with
  | nil => simp [insertByTotal]
  | cons x xs ih =>
      unfold insertByTotal
      by_cases hx : x.get_total_score ≤ e.get_total_score
      · rw [if_pos hx]
      · rw [if_neg hx]
        exact (List.Perm.cons x ih).trans (List.Perm.swap e x xs)

/-- The consolidation sort permutes its input. -/
lemma sortByTotalDesc_perm (l : List EssayEvaluation) :
    List.Perm (sortByTotalDesc l) l := by
  induction l with
  | nil => exact List.Perm.refl []
  | cons x xs ih =>
      unfold sortByTotalDesc
      exact (insertByTotal_perm x (sortByTotalDesc xs)).trans (List.Perm.cons x ih)

/-- Inserting into a descending-sorted list keeps it descending-sorted. -/
lemma insertByTotal_pairwise {e : EssayEvaluation} {l : List EssayEvaluation}
    (h : l.Pairwise (fun a b => b.get_total_score ≤ a.get_total_score)) :
    (insertByTotal e l).Pairwise (fun a b => b.get_total_score ≤ a.get_total_score) := by
  induction l with
  | nil => simp [insertByTotal]
  | cons x xs ih =>
      unfold insertByTotal
      rcases List.pairwise_cons.mp h with ⟨hx_all, hxs⟩
      by_cases hx : x.get_total_score ≤ e.get_total_score
      · rw [if_pos hx]
        refine List.pairwise_cons.mpr ⟨?_, h⟩
        intro y hy
        rcases List.mem_cons.mp hy with rfl | hy
        · exact hx
        · exact le_trans (hx_all y hy) hx
      · rw [if_neg hx]
        refine List.pairwise_cons.mpr ⟨?_, ih hxs⟩
        intro y hy
        rcases mem_insertByTotal.mp hy with rfl | hy
        · exact le_of_lt (lt_of_not_le hx)
        · exact hx_all y hy

/-- The consolidation sort produces a descending-sorted list. -/
lemma sortByTotalDesc_pairwise (l : List EssayEvaluation) :
    (sortByTotalDesc l).Pairwise (fun a b => b.get_total_score ≤ a.get_total_score) := by
  induction l with
  | nil => simp [sortByTotalDesc]
  | cons x xs ih =>
      unfold sortByTotalDesc
      exact insertByTotal_pairwise ih

/-- Stability through one insertion step: the inserted element goes in
front of every element with the same total (it is inserted before the first
element whose total is `≤` its own), and the relative order of all other
elements is untouched. -/
lemma filter_insertByTotal (e : EssayEvaluation) (l : List EssayEvaluation) (k : Int) :
    (insertByTotal e l).filter (fun x => x.get_total_score == k) =
      if e.get_total_score = k then
        e :: l.filter (fun x => x.get_total_score == k)
      else
        l.filter (fun x => x.get_total_score == k) := by
  induction l with
  | nil =>
      by_cases hek : e.get_total_score = k
      · rw [if_pos hek]
        simp [insertByTotal, List.filter_cons, hek]
      · rw [if_neg hek]
        simp [insertByTotal, List.filter_cons, hek]
  | cons x xs ih =>
      unfold insertByTotal
      by_cases hx : x.get_total_score ≤ e.get_total_score
      · rw [if_pos hx]
        by_cases hek : e.get_total_score = k
        · rw [if_pos hek]
          simp [List.filter_cons, hek]
        · rw [if_neg hek]
          simp [List.filter_cons, hek]
      · rw [if_neg hx]
        by_cases hek : e.get_total_score = k
        · rw [if_pos hek]
          have hxk : ¬ x.get_total_score = k := by
            intro hcontra
            exact hx (le_of_eq (hcontra.trans hek.symm))
          simp [List.filter_cons, hxk, ih, hek]
        · rw [if_neg hek]
          by_cases hxk : x.get_total_score = k
          · simp [List.filter_cons, hxk, ih, hek]
          · simp [List.filter_cons, hxk, ih, hek]

/-- Stability of the consolidation sort: for every total value, the
elements with that total appear in the output in exactly their input
order. -/
lemma sortByTotalDesc_stable (l : List EssayEvaluation) (k : Int) :
    (sortByTotalDesc l).filter (fun x => x.get_total_score == k) =
      l.filter (fun x => x.get_total_score == k) := by
  induction l with
  | nil => rfl
  | cons x xs ih =>
      unfold sortByTotalDesc
      rw [filter_insertByTotal]
      by_cases hxk : x.get_total_score = k
      · rw [if_pos hxk]
        simp [List.filter_cons, hxk, ih]
      · rw [if_neg hxk]
        simp [List.filter_cons, hxk, ih]

/-- C5: consolidation sorts the scored items by `total_score` descending
with ties broken by the items' original order.  First part: for every input
list, the stored `sorted_evaluations` is a permutation of the input,
descending in total score, and stable — for every total value `k`, the
items of total `k` keep exactly their input order.  Second part: on the
spec's instance, totals `[50, 80, 80, 30]` in that input order sort to
`[item2, item3, item1, item4]`, with item2 before the equal-total item3. -/
theorem consolidation_stable_descending_sort :
    (∀ (evals : List EssayEvaluation) (config : ContestConfig),
      List.Perm (ConsolidatedResults.init evals config).sorted_evaluations evals ∧
      ((ConsolidatedResults.init evals config).sorted_evaluations).Pairwise
        (fun a b => b.get_total_score ≤ a.get_total_score) ∧
      ∀ k : Int,
        ((ConsolidatedResults.init evals config).sorted_evaluations).filter
            (fun x => x.get_total_score == k) =
          evals.filter (fun x => x.get_total_score == k)) ∧
    (exItem1.get_total_score = 50 ∧ exItem2.get_total_score = 80 ∧
     exItem3.get_total_score = 80 ∧ exItem4.get_total_score = 30) ∧
    (ConsolidatedResults.init [exItem1, exItem2, exItem3, exItem4]
        (ContestConfig.init none none)).sorted_evaluations =
      [exItem2, exItem3, exItem1, exItem4] := by
  refine ⟨fun evals config => ⟨?_, ?_, ?_⟩, by decide, by decide⟩
  · exact sortByTotalDesc_perm evals
  · exact sortByTotalDesc_pairwise evals
  · exact fun k => sortByTotalDesc_stable evals k

/-- C8: for every consolidated result set with a non-negative configured
`num_winners`, the winners list has exactly
`min(num_winners, number of scored items)` entries, and its `k`-th entry is
the `k`-th ranked evaluation tagged with the 1-based place `k + 1`. -/
theorem get_winners_clamped_and_tagged (evals : List EssayEvaluation)
    (config : ContestConfig) (h : 0 ≤ config.num_winners) :
    ((ConsolidatedResults.init evals config).get_winners).length =
      min config.num_winners.toNat evals.length ∧
    ∀ k : Nat, k < ((ConsolidatedResults.init evals config).get_winners).length →
      ((ConsolidatedResults.init evals config).get_winners)[k]? =
        ((ConsolidatedResults.init evals config).sorted_evaluations)[k]?.map
          (fun e => ((k : Int) + 1, e)) := by
  have hlen : (sortByTotalDesc evals).length = evals.length :=
    (sortByTotalDesc_perm evals).length_eq
  constructor
  · simp only [ConsolidatedResults.get_winners, ConsolidatedResults.init,
      List.length_map, List.enum_length, List.length_take, hlen]
    omega
  · intro k hk
    simp only [ConsolidatedResults.get_winners, ConsolidatedResults.init,
      List.length_map, List.enum_length, List.length_take] at hk
    have hkn : k < (min config.num_winners
        ((sortByTotalDesc evals).length : Int)).toNat := by omega
    simp only [ConsolidatedResults.get_winners, ConsolidatedResults.init,
      List.getElem?_map, List.enum, List.getElem?_enumFrom,
      List.getElem?_take_of_lt hkn, Option.map_map]
    cases (sortByTotalDesc evals)[k]? <;> simp [Function.comp]

/-- Witness for C8: with the default configuration (`num_winners = 3`) and
two scored items, the winners list has length `min 3 2 = 2`. -/
theorem get_winners_clamped_and_tagged_witness :
    0 ≤ (ContestConfig.init none none).num_winners ∧
    ((ConsolidatedResults.init [wEvalA, wEvalB]
        (ContestConfig.init none none)).get_winners).length =
      min (ContestConfig.init none none).num_winners.toNat 2 ∧
    ((ConsolidatedResults.init [wEvalA, wEvalB]
        (ContestConfig.init none none)).get_winners).length = 2 :=
  ⟨by decide,
   (get_winners_clamped_and_tagged [wEvalA, wEvalB] (ContestConfig.init none none)
      (by decide)).1,
   ((get_winners_clamped_and_tagged [wEvalA, wEvalB] (ContestConfig.init none none)
      (by decide)).1).trans (by decide)⟩

/-! ### Lemmas about the evaluation pipeline -/

/-- Dict assignment makes the assigned key present. -/
lemma dictGet?_dictSet_self (d : List (Int × JudgeScore)) (k : Int) (v : JudgeScore) :
    dictGet? (dictSet d k v) k = some v := by
  induction d with
  | nil => simp [dictSet, dictGet?]
  | cons p rest ih =>
      obtain ⟨k1, v1⟩ := p
      unfold dictSet
      by_cases hk : k1 = k
      · rw [if_pos hk]
        simp [dictGet?]
      · rw [if_neg hk]
        simp [dictGet?, hk, ih]

/-- Dict assignment never removes a present key. -/
lemma dictGet?_dictSet_preserve (d : List (Int × JudgeScore)) (k k1 : Int)
    (v : JudgeScore) (h : (dictGet? d k).isSome = true) :
    (dictGet? (dictSet d k1 v) k).isSome = true := by
  induction d with
  | nil => simp [dictGet?] at h
  | cons p rest ih =>
      obtain ⟨k2, v2⟩ := p
      unfold dictSet
      by_cases hk : k2 = k1
      · rw [if_pos hk]
        unfold dictGet? at h ⊢
        by_cases hkk : k1 = k
        · simp [hkk]
        · rw [if_neg hkk]
          have hk2 : ¬ k2 = k := by
            rw [hk]
            exact hkk
          rw [if_neg hk2] at h
          exact h
      · rw [if_neg hk]
        unfold dictGet? at h ⊢
        by_cases hkk : k2 = k
        · simp [hkk]
        · rw [if_neg hkk] at h ⊢
          exact ih h

/-- The per-essay fold never changes the evaluation's essay. -/
lemma evaluateEssay_foldl_essay (judges : List JudgeSpec)
    (resp : JudgeSpec → LiveResponse) (essay : Essay) (st : EssayEvaluation) :
    (judges.foldl
      (fun evaluation j =>
        match Judge.evaluate j essay.content essay.student_name (resp j) with
        | .ok score => evaluation.add_judge_score j.judge_id score
        | .error _ => evaluation)
      st).essay = st.essay := by
  induction judges generalizing st with
  | nil => rfl
  | cons j js ih =>
      simp only [List.foldl_cons]
      cases Judge.evaluate j essay.content essay.student_name (resp j) with
      | ok score => exact (ih _).trans rfl
      | error e => exact ih st

/-- The evaluation produced for an essay carries that essay. -/
lemma evaluateEssay_essay (judges : List JudgeSpec) (resp : JudgeSpec → LiveResponse)
    (essay : Essay) : (evaluateEssay judges resp essay).essay = essay :=
  evaluateEssay_foldl_essay judges resp essay ⟨essay, []⟩

/-- A key present in the accumulating evaluation stays present through the
per-essay fold. -/
lemma evaluateEssay_foldl_key_preserved (judges : List JudgeSpec)
    (resp : JudgeSpec → LiveResponse) (essay : Essay) (st : EssayEvaluation)
    (k : Int) (h : (dictGet? st.judge_scores k).isSome = true) :
    (dictGet? (judges.foldl
      (fun evaluation j =>
        match Judge.evaluate j essay.content essay.student_name (resp j) with
        | .ok score => evaluation.add_judge_score j.judge_id score
        | .error _ => evaluation)
      st).judge_scores k).isSome = true := by
  induction judges generalizing st with
  | nil => exact h
  | cons j js ih =>
      simp only [List.foldl_cons]
      cases Judge.evaluate j essay.content essay.student_name (resp j) with
      | ok score =>
          exact ih _ (dictGet?_dictSet_preserve st.judge_scores k j.judge_id score h)
      | error e => exact ih st h

/-- A judge with a successful call contributes its key to the fold, from
any starting state. -/
lemma evaluateEssay_foldl_key_of_ok (judges : List JudgeSpec)
    (resp : JudgeSpec → LiveResponse) (essay : Essay) (j : JudgeSpec)
    (hj : j ∈ judges)
    (hok : (Judge.evaluate j essay.content essay.student_name (resp j)).isOk = true)
    (st : EssayEvaluation) :
    (dictGet? (judges.foldl
      (fun evaluation j1 =>
        match Judge.evaluate j1 essay.content essay.student_name (resp j1) with
        | .ok score => evaluation.add_judge_score j1.judge_id score
        | .error _ => evaluation)
      st).judge_scores j.judge_id).isSome = true := by
  induction judges generalizing st with
  | nil => cases hj
  | cons j1 js ih =>
      rcases List.mem_cons.mp hj with rfl | hj1
      · simp only [List.foldl_cons]
        cases hcall : Judge.evaluate j essay.content essay.student_name (resp j) with
        | ok score =>
            refine evaluateEssay_foldl_key_preserved js resp essay _ j.judge_id ?_
            simp [EssayEvaluation.add_judge_score, dictGet?_dictSet_self]
        | error e =>
            rw [hcall] at hok
            simp [Except.isOk, Except.toBool] at hok
      · simp only [List.foldl_cons]
        cases hcall : Judge.evaluate j1 essay.content essay.student_name (resp j1) with
        | ok score => exact ih hj1 _
        | error e => exact ih hj1 _

/-- Every judge whose `evaluate` call returns a Score contributes an entry
under its judge id to the evaluation the pipeline builds for the essay. -/
lemma evaluateEssay_key_of_ok (judges : List JudgeSpec)
    (resp : JudgeSpec → LiveResponse) (essay : Essay) (j : JudgeSpec)
    (hj : j ∈ judges)
    (hok : (Judge.evaluate j essay.content essay.student_name (resp j)).isOk = true) :
    (dictGet? (evaluateEssay judges resp essay).judge_scores j.judge_id).isSome = true :=
  evaluateEssay_foldl_key_of_ok judges resp essay j hj hok ⟨essay, []⟩

/-- If every judge call for the essay raises, the fold adds nothing. -/
lemma evaluateEssay_all_fail (judges : List JudgeSpec)
    (resp : JudgeSpec → LiveResponse) (essay : Essay)
    (hfail : ∀ j ∈ judges, ∃ e,
      Judge.evaluate j essay.content essay.student_name (resp j) = Except.error e) :
    evaluateEssay judges resp essay = ⟨essay, []⟩ := by
  unfold evaluateEssay
  induction judges with
  | nil => rfl
  | cons j js ih =>
      obtain ⟨e, he⟩ := hfail j (List.mem_cons_self j js)
      simp only [List.foldl_cons, he]
      exact ih (fun j1 hj1 => hfail j1 (List.mem_cons_of_mem j hj1))

/-- The pipeline result at position `k` is the evaluation of the `k`-th
essay. -/
lemma evaluate_all_essays_getElem (essays : List Essay) (judges : List JudgeSpec)
    (resp : Essay → JudgeSpec → LiveResponse) (k : Nat) :
    (evaluate_all_essays essays judges resp)[k]? =
      (essays[k]?).map (fun e => evaluateEssay judges (resp e) e) := by
  unfold evaluate_all_essays
  exact List.getElem?_map _ _ _

/-- C7: if every judge's `evaluate` raises for one item, that item's
evaluation ends with zero score entries and `average_score` `0` (not an
error), the batch still has one result per essay, and every position holds
an evaluation of its essay — a per-(item, judge) failure never aborts the
item or the batch. -/
theorem pipeline_survives_total_judge_failure (essays : List Essay)
    (judges : List JudgeSpec) (resp : Essay → JudgeSpec → LiveResponse)
    (i : Nat) (e : Essay) (he : essays[i]? = some e)
    (hfail : ∀ j ∈ judges, ∃ exc,
      Judge.evaluate j e.content e.student_name (resp e j) = Except.error exc) :
    (evaluate_all_essays essays judges resp).length = essays.length ∧
    (evaluate_all_essays essays judges resp)[i]? =
      some (⟨e, []⟩ : EssayEvaluation) ∧
    EssayEvaluation.get_average_score ⟨e, []⟩ = 0 ∧
    ∀ k : Nat, ((evaluate_all_essays essays judges resp)[k]?).map
        EssayEvaluation.essay = essays[k]? := by
  refine ⟨?_, ?_, ?_, ?_⟩
  · unfold evaluate_all_essays
    exact List.length_map _ _
  · rw [evaluate_all_essays_getElem, he]
    simp [evaluateEssay_all_fail judges (resp e) e hfail]
  · simp [EssayEvaluation.get_average_score]
  · intro k
    rw [evaluate_all_essays_getElem]
    cases hk : essays[k]? with
    | none => simp
    | some e1 => simp [evaluateEssay_essay]

/-- Witness for C7: a batch of two essays and one live Google-backed judge
whose call raises for the first essay and succeeds for the second: the
first evaluation has no entries and average `0`, and the second essay still
gets its result. -/
theorem pipeline_survives_total_judge_failure_witness :
    [wesA, wesB][0]? = some wesA ∧
    Judge.evaluate wJudgeG wesA.content wesA.student_name (wResp wesA wJudgeG) =
      Except.error PyExc.googleAPIError ∧
    (evaluate_all_essays [wesA, wesB] [wJudgeG] wResp).length = 2 ∧
    (evaluate_all_essays [wesA, wesB] [wJudgeG] wResp)[0]? =
      some (⟨wesA, []⟩ : EssayEvaluation) ∧
    EssayEvaluation.get_average_score ⟨wesA, []⟩ = 0 ∧
    ((evaluate_all_essays [wesA, wesB] [wJudgeG] wResp)[1]?).map
      EssayEvaluation.essay = some wesB := by
  have h := pipeline_survives_total_judge_failure [wesA, wesB] [wJudgeG] wResp 0 wesA rfl
    (fun j hj => by
      have hj1 := List.mem_singleton.mp hj
      subst hj1
      exact ⟨PyExc.googleAPIError, rfl⟩)
  exact ⟨rfl, rfl, h.1, h.2.1, h.2.2.1, (h.2.2.2 1).trans rfl⟩

/-- C9: an item flagged as disqualified (word count over the limit) is
still evaluated and still ranked: the pipeline produces its evaluation at
its position, every judge whose call succeeds contributes a score entry for
it (the flag is consulted nowhere in the pipeline), and the evaluation
appears in the consolidated, ranked result set. -/
theorem disqualification_informational_only
    (limit : Nat) (content sname : String) (essays : List Essay)
    (judges : List JudgeSpec) (resp : Essay → JudgeSpec → LiveResponse)
    (config : ContestConfig) (i : Nat)
    (hover : count_words content > limit)
    (he : essays[i]? = some (mkEssay limit content sname)) :
    (mkEssay limit content sname).is_disqualified = true ∧
    (evaluate_all_essays essays judges resp)[i]? =
      some (evaluateEssay judges (resp (mkEssay limit content sname))
        (mkEssay limit content sname)) ∧
    (∀ j ∈ judges,
      (Judge.evaluate j (mkEssay limit content sname).content
          (mkEssay limit content sname).student_name
          (resp (mkEssay limit content sname) j)).isOk = true →
      (dictGet? (evaluateEssay judges (resp (mkEssay limit content sname))
          (mkEssay limit content sname)).judge_scores j.judge_id).isSome = true) ∧
    evaluateEssay judges (resp (mkEssay limit content sname))
        (mkEssay limit content sname) ∈
      (ConsolidatedResults.init (evaluate_all_essays essays judges resp)
        config).sorted_evaluations := by
  refine ⟨?_, ?_, ?_, ?_⟩
  · simp [mkEssay, hover]
  · rw [evaluate_all_essays_getElem, he]
    rfl
  · intro j hj hok
    exact evaluateEssay_key_of_ok judges _ _ j hj hok
  · have hsome : (evaluate_all_essays essays judges resp)[i]? =
        some (evaluateEssay judges (resp (mkEssay limit content sname))
          (mkEssay limit content sname)) := by
      rw [evaluate_all_essays_getElem, he]
      rfl
    exact (sortByTotalDesc_perm (evaluate_all_essays essays judges resp)).mem_iff.mpr
      (List.getElem?_mem hsome)

/-- Witness for C9: a three-word essay over a two-word limit is flagged
disqualified, is still scored by a fallback-only judge, and still appears
in the ranked result set. -/
theorem disqualification_informational_only_witness :
    count_words dqContent > 2 ∧
    [mkEssay 2 dqContent "Ida Ives"][0]? = some (mkEssay 2 dqContent "Ida Ives") ∧
    (mkEssay 2 dqContent "Ida Ives").is_disqualified = true ∧
    (Judge.evaluate dqJudge (mkEssay 2 dqContent "Ida Ives").content
        (mkEssay 2 dqContent "Ida Ives").student_name
        ((fun _ _ => LiveResponse.nonJson) (mkEssay 2 dqContent "Ida Ives") dqJudge)).isOk
      = true ∧
    (dictGet? (evaluateEssay [dqJudge]
        ((fun _ _ => LiveResponse.nonJson) (mkEssay 2 dqContent "Ida Ives"))
        (mkEssay 2 dqContent "Ida Ives")).judge_scores dqJudge.judge_id).isSome = true ∧
    evaluateEssay [dqJudge]
        ((fun _ _ => LiveResponse.nonJson) (mkEssay 2 dqContent "Ida Ives"))
        (mkEssay 2 dqContent "Ida Ives") ∈
      (ConsolidatedResults.init
        (evaluate_all_essays [mkEssay 2 dqContent "Ida Ives"] [dqJudge]
          (fun _ _ => LiveResponse.nonJson))
        (ContestConfig.init none none)).sorted_evaluations := by
  have h := disqualification_informational_only 2 dqContent "Ida Ives"
    [mkEssay 2 dqContent "Ida Ives"] [dqJudge] (fun _ _ => LiveResponse.nonJson)
    (ContestConfig.init none none) 0 (by decide) rfl
  refine ⟨by decide, rfl, h.1, rfl, ?_, h.2.2.2⟩
  exact h.2.2.1 dqJudge (List.mem_singleton.mpr rfl) rfl

/-- C3 (evaluating the code at the failing input): in a batch where every
judge call for every item raised, each evaluation holds zero scores and has
total `0`; the consolidation stage then crashes instead of completing:
`_display_results` computes `evaluation.judge_scores.get(i, 0).total`, and
with no entry for judge 1 the default int `0` has no attribute `total`, so
an `AttributeError` is raised (the ranked table of `_save_results` has the
identical read, and the winners line of `create_analysis_prompt` raises
`KeyError` on its unguarded subscript). -/
theorem consolidation_crashes_on_all_failed_batch :
    failedBatchEvaluations = [⟨essayAllFail, []⟩] ∧
    failedBatchEvaluations.map EssayEvaluation.get_total_score = [0] ∧
    display_results (ConsolidatedResults.init failedBatchEvaluations
        (ContestConfig.init (some 2) none)) = Except.error PyExc.attributeError ∧
    save_results (ConsolidatedResults.init failedBatchEvaluations
        (ContestConfig.init (some 2) none)) = Except.error PyExc.attributeError ∧
    create_analysis_prompt (ConsolidatedResults.init failedBatchEvaluations
        (ContestConfig.init (some 2) none)) (ContestConfig.init (some 2) none) =
      Except.error PyExc.keyError ∧
    consolidate_and_determine_winners failedBatchEvaluations
        (ContestConfig.init (some 2) none) = Except.error PyExc.attributeError :=
  ⟨rfl, rfl, rfl, rfl, rfl, rfl⟩

end Hotbench
